import Mathlib

/-!
HomeControlHub: the MQTT / Wi-Fi event handlers of the IoT device.

Shallow embedding of `iotdevice/main/hal/network_mqtt_handler.c` and
`iotdevice/main/hal/led_control.c`.

* C memory reached through a `char *` is a `List Nat` of the bytes found at the
  pointer; a read past the modelled bytes yields NUL.
* The two file-scope variables `client_handle` and `current_led_command_topic`
  form the `State`; every handler is a function `State → ... → State × List Effect`
  where the effect list is the ordered trace of the calls made into ESP-IDF
  (logging, subscribe, GPIO, Wi-Fi connect, MQTT client management).
-/

namespace HomeControlHub

/-! ## C strings -/

/-- Bytes of a string literal, without its terminating NUL. -/
def lit (s : String) : List Nat := s.toList.map Char.toNat

/-- The C string found at a pointer: the bytes before the first NUL. -/
def cstr (p : List Nat) : List Nat := p.takeWhile (fun c => c != 0)

/-- Libc `strlen`. -/
def strlen (p : List Nat) : Nat := (cstr p).length

/-- Libc `strncmp(s1, s2, n)`: compares at most `n` bytes, stops after a NUL;
the result is the difference of the first pair of bytes that differ, else 0. -/
def strncmp : List Nat → List Nat → Nat → Int
  | _, _, 0 => 0
  | s1, s2, n + 1 =>
    let c1 := s1.headD 0
    let c2 := s2.headD 0
    if c1 ≠ c2 then (c1 : Int) - (c2 : Int)
    else if c1 = 0 then 0
    else strncmp s1.tail s2.tail n

/-- Libc `snprintf(buf, size, ...)` once the format has been expanded to `out`:
at most `size - 1` bytes of `out` are stored, followed by a NUL; the bytes of
`buf` behind the NUL are left as they were. Nothing is stored when `size = 0`. -/
def snprintf (buf : List Nat) (size : Nat) (out : List Nat) : List Nat :=
  if size = 0 then buf
  else
    let w := out.take (size - 1) ++ [0]
    w ++ buf.drop w.length

/-! ## ESP-IDF types used by the handlers -/

abbrev gpio_num_t := Int

/-- A client handle; `none` is the NULL handle. -/
abbrev esp_mqtt_client_handle_t := Option Nat

inductive esp_mqtt_event_id_t where
  | MQTT_EVENT_ANY
  | MQTT_EVENT_ERROR
  | MQTT_EVENT_CONNECTED
  | MQTT_EVENT_DISCONNECTED
  | MQTT_EVENT_SUBSCRIBED
  | MQTT_EVENT_UNSUBSCRIBED
  | MQTT_EVENT_PUBLISHED
  | MQTT_EVENT_DATA
  | MQTT_EVENT_BEFORE_CONNECT
  | MQTT_EVENT_DELETED
  deriving DecidableEq, Repr

inductive esp_mqtt_error_type_t where
  | MQTT_ERROR_TYPE_NONE
  | MQTT_ERROR_TYPE_TCP_TRANSPORT
  | MQTT_ERROR_TYPE_CONNECTION_REFUSED
  deriving DecidableEq, Repr

structure esp_mqtt_error_codes_t where
  esp_tls_last_esp_error : Int
  esp_tls_stack_error : Int
  esp_transport_sock_errno : Int
  error_type : esp_mqtt_error_type_t
  deriving DecidableEq, Repr

/-- The fields of `esp_mqtt_event_t` read by the handler. `topic` and `data`
are the bytes found at the two pointers, `topic_len` and `data_len` the
lengths reported with them (`int` fields that are never negative, passed to
`strncmp` as `size_t` unchanged). -/
structure esp_mqtt_event_t where
  event_id : esp_mqtt_event_id_t
  client : esp_mqtt_client_handle_t
  data : List Nat
  data_len : Nat
  topic : List Nat
  topic_len : Nat
  msg_id : Int
  error_handle : esp_mqtt_error_codes_t
  deriving DecidableEq, Repr

inductive wifi_event_t where
  | WIFI_EVENT_STA_START
  | WIFI_EVENT_STA_CONNECTED
  | WIFI_EVENT_STA_DISCONNECTED
  | WIFI_EVENT_OTHER
  deriving DecidableEq, Repr

inductive ip_event_t where
  | IP_EVENT_STA_GOT_IP
  | IP_EVENT_OTHER
  deriving DecidableEq, Repr

/-- An event base together with the event id posted on it. -/
inductive esp_event_t where
  | WIFI_EVENT (event_id : wifi_event_t)
  | IP_EVENT (event_id : ip_event_t)
  | OTHER_EVENT
  deriving DecidableEq, Repr

/-- The log lines of the two handlers, one constructor per logging call. -/
inductive LogLine where
  | last_error (message : String) (error_code : Int)
  | mqtt_event_connected
  | sent_subscribe_successful
  | mqtt_event_disconnected
  | mqtt_event_subscribed
  | mqtt_event_unsubscribed
  | mqtt_event_published
  | mqtt_event_data
  | printf_topic
  | printf_data
  | received_command_for_led
  | led_turned_on
  | led_turned_off
  | unknown_led_command_payload
  | mqtt_event_error
  | last_errno_string
  | other_event_id
  | wifi_disconnected_trying_to_reconnect
  | got_ip
  | mqtt_client_already_initialized
  | mqtt_client_initialized_and_started
  deriving DecidableEq, Repr

/-- One call made by the handlers into the platform. -/
inductive Effect where
  | log (line : LogLine)
  | esp_mqtt_client_subscribe (client : esp_mqtt_client_handle_t) (topic : List Nat) (qos : Nat)
  | gpio_set_level (gpio_num : gpio_num_t) (level : Nat)
  | esp_wifi_connect
  | esp_mqtt_client_register_event (client : esp_mqtt_client_handle_t) (handler_args : Option gpio_num_t)
  | esp_mqtt_client_init
  | esp_mqtt_client_start (client : esp_mqtt_client_handle_t)
  | esp_mqtt_client_stop (client : esp_mqtt_client_handle_t)
  | esp_mqtt_client_destroy (client : esp_mqtt_client_handle_t)
  deriving DecidableEq, Repr

/-! ## State of `network_mqtt_handler.c` -/

/-- The file-scope variables: `client_handle` and the 100-byte buffer
`current_led_command_topic`. -/
structure State where
  client_handle : esp_mqtt_client_handle_t
  current_led_command_topic : List Nat
  deriving DecidableEq, Repr

/-- Size of `current_led_command_topic`. -/
def TOPIC_BUFFER_SIZE : Nat := 100

/-- Static storage is zero-initialised. -/
def State.init : State :=
  { client_handle := none
    current_led_command_topic := List.replicate TOPIC_BUFFER_SIZE 0 }

def MQTT_DEVICE_ID : List Nat := lit "esp32_led_controller_01"

/-! ## led_control.c -/

/-- `led_set_state`: drives the pin to 1 for `true`, to 0 for `false`. -/
def led_set_state (gpio_num : gpio_num_t) (state : Bool) : List Effect :=
  [Effect.gpio_set_level gpio_num (if state then 1 else 0)]

/-! ## network_mqtt_handler.c -/

def log_error_if_nonzero (message : String) (error_code : Int) : List Effect :=
  if error_code ≠ 0 then [Effect.log (LogLine.last_error message error_code)] else []

/-- The expansion of the format `home/devices/%s/command/setLed`. -/
def format_topic (device_id : List Nat) : List Nat :=
  lit "home/devices/" ++ cstr device_id ++ lit "/command/setLed"

/-- The body of `network_mqtt_event_handler_cb`, with the string behind the
macro `MQTT_DEVICE_ID` as a parameter. `handler_args` is the pin found behind
the pointer, `none` for a NULL pointer. -/
def mqtt_event_handler_body (device_id : List Nat) (st : State)
    (handler_args : Option gpio_num_t) (event_id : esp_mqtt_event_id_t)
    (event : esp_mqtt_event_t) : State × List Effect :=
  let local_client := event.client
  match event_id with
  | .MQTT_EVENT_CONNECTED =>
    let topic := snprintf st.current_led_command_topic TOPIC_BUFFER_SIZE (format_topic device_id)
    ({ st with current_led_command_topic := topic },
      [Effect.log .mqtt_event_connected,
       Effect.esp_mqtt_client_subscribe local_client (cstr topic) 0,
       Effect.log .sent_subscribe_successful])
  | .MQTT_EVENT_DISCONNECTED => (st, [Effect.log .mqtt_event_disconnected])
  | .MQTT_EVENT_SUBSCRIBED => (st, [Effect.log .mqtt_event_subscribed])
  | .MQTT_EVENT_UNSUBSCRIBED => (st, [Effect.log .mqtt_event_unsubscribed])
  | .MQTT_EVENT_PUBLISHED => (st, [Effect.log .mqtt_event_published])
  | .MQTT_EVENT_DATA =>
    (st,
      [Effect.log .mqtt_event_data, Effect.log .printf_topic, Effect.log .printf_data] ++
      (if strncmp event.topic st.current_led_command_topic event.topic_len = 0 then
        [Effect.log .received_command_for_led] ++
        (match handler_args with
         | some led_pin =>
           if strncmp event.data (lit "true") event.data_len = 0 then
             led_set_state led_pin true ++ [Effect.log .led_turned_on]
           else if strncmp event.data (lit "false") event.data_len = 0 then
             led_set_state led_pin false ++ [Effect.log .led_turned_off]
           else
             [Effect.log .unknown_led_command_payload]
         | none => [])
       else []))
  | .MQTT_EVENT_ERROR =>
    (st,
      [Effect.log .mqtt_event_error] ++
      (if event.error_handle.error_type = .MQTT_ERROR_TYPE_TCP_TRANSPORT then
        log_error_if_nonzero "reported from esp-tls" event.error_handle.esp_tls_last_esp_error ++
        log_error_if_nonzero "reported from tls stack" event.error_handle.esp_tls_stack_error ++
        log_error_if_nonzero "captured as transport's socket errno"
          event.error_handle.esp_transport_sock_errno ++
        [Effect.log .last_errno_string]
       else []))
  | _ => (st, [Effect.log .other_event_id])

/-- `network_mqtt_event_handler_cb` as compiled: the device identity is the
macro `MQTT_DEVICE_ID`. -/
def network_mqtt_event_handler_cb (st : State) (handler_args : Option gpio_num_t)
    (event_id : esp_mqtt_event_id_t) (event : esp_mqtt_event_t) : State × List Effect :=
  mqtt_event_handler_body MQTT_DEVICE_ID st handler_args event_id event

/-- `network_mqtt_app_start`. The file defines the function twice; this is
the second definition, the one its comment marks as matching the header: it
stops and destroys an existing client, then creates and starts a new one. The
first definition differs only in lacking the stop/destroy of an existing
client. `init_result` is the handle returned by `esp_mqtt_client_init`. -/
def network_mqtt_app_start (st : State) (init_result : esp_mqtt_client_handle_t) :
    State × List Effect :=
  let pre :=
    if st.client_handle.isSome then
      [Effect.log .mqtt_client_already_initialized,
       Effect.esp_mqtt_client_stop st.client_handle,
       Effect.esp_mqtt_client_destroy st.client_handle]
    else []
  ({ st with client_handle := init_result },
    pre ++ [Effect.esp_mqtt_client_init, Effect.esp_mqtt_client_start init_result,
            Effect.log .mqtt_client_initialized_and_started])

/-- `wifi_event_handler_internal`; `arg` is the pin behind the pointer,
`none` for NULL. -/
def wifi_event_handler_internal (st : State) (arg : Option gpio_num_t)
    (event : esp_event_t) (init_result : esp_mqtt_client_handle_t) : State × List Effect :=
  match event with
  | .WIFI_EVENT .WIFI_EVENT_STA_START => (st, [Effect.esp_wifi_connect])
  | .WIFI_EVENT .WIFI_EVENT_STA_DISCONNECTED =>
    (st, [Effect.log .wifi_disconnected_trying_to_reconnect, Effect.esp_wifi_connect])
  | .IP_EVENT .IP_EVENT_STA_GOT_IP =>
    let reg :=
      match arg with
      | some _ => [Effect.esp_mqtt_client_register_event st.client_handle arg]
      | none => []
    let r := network_mqtt_app_start st init_result
    (r.1, [Effect.log .got_ip] ++ reg ++ r.2)
  | _ => (st, [])

/-! ## Event sequences -/

/-- An event delivered on the single event queue, with the arguments the
callback is invoked with. -/
inductive Event where
  | link (arg : Option gpio_num_t) (event : esp_event_t) (init_result : esp_mqtt_client_handle_t)
  | session (handler_args : Option gpio_num_t) (event_id : esp_mqtt_event_id_t)
      (event : esp_mqtt_event_t)
  deriving DecidableEq, Repr

/-- Dispatch of one queued event to its handler. -/
def step (st : State) : Event → State × List Effect
  | .link arg event init_result => wifi_event_handler_internal st arg event init_result
  | .session handler_args event_id event =>
    network_mqtt_event_handler_cb st handler_args event_id event

/-- Events are processed one at a time in arrival order; the trace is the
concatenation of the handlers' traces. -/
def run (st : State) : List Event → State × List Effect
  | [] => (st, [])
  | e :: es =>
    let r := step st e
    let r2 := run r.1 es
    (r2.1, r.2 ++ r2.2)

/-- The actuator calls of a trace, in order. -/
def actuatorCalls (tr : List Effect) : List Effect :=
  tr.filter (fun e => match e with | .gpio_set_level _ _ => true | _ => false)

/-- The subscribe requests of a trace, in order. -/
def subscribeCalls (tr : List Effect) : List Effect :=
  tr.filter (fun e => match e with | .esp_mqtt_client_subscribe _ _ _ => true | _ => false)

/-- The session connect requests of a trace (`esp_mqtt_client_start`). -/
def sessionConnectCalls (tr : List Effect) : List Effect :=
  tr.filter (fun e => match e with | .esp_mqtt_client_start _ => true | _ => false)

/-- A message event carrying the given topic and payload, each with the
reported length equal to the number of bytes given, followed in memory by
arbitrary bytes. -/
def messageEvent (client : esp_mqtt_client_handle_t) (topic topicRest payload payloadRest : List Nat) :
    esp_mqtt_event_t :=
  { event_id := .MQTT_EVENT_DATA
    client := client
    data := payload ++ payloadRest
    data_len := payload.length
    topic := topic ++ topicRest
    topic_len := topic.length
    msg_id := 0
    error_handle :=
      { esp_tls_last_esp_error := 0, esp_tls_stack_error := 0,
        esp_transport_sock_errno := 0, error_type := .MQTT_ERROR_TYPE_NONE } }

/-- The canonical command topic of the configured device. -/
def canonicalTopic : List Nat := lit "home/devices/esp32_led_controller_01/command/setLed"

/-- The state reached from the initial one by a session-connected event. -/
def connectedState : State :=
  (network_mqtt_event_handler_cb State.init none .MQTT_EVENT_CONNECTED
    (messageEvent none [] [] [] [])).1

/-! ## Lemmas on the C string functions -/

theorem lit_true_eq : lit "true" = [116, 114, 117, 101] := by decide

theorem lit_false_eq : lit "false" = [102, 97, 108, 115, 101] := by decide

/-- Comparing the stored string with a copy of itself, over its own length. -/
theorem strncmp_cstr_self (b rest : List Nat) :
    strncmp (cstr b ++ rest) b (cstr b).length = 0 := by
  induction b with
  | nil => simp [cstr, strncmp]
  | cons c b ih =>
    by_cases hc : c = 0
    · subst hc
      simp [cstr, strncmp]
    · have h1 : cstr (c :: b) = c :: cstr b := by
        simp [cstr, List.takeWhile_cons, hc]
      rw [h1]
      simp only [List.cons_append, List.length_cons, strncmp, List.headD_cons, List.tail_cons]
      simp [hc, ih]

theorem strncmp_true_exact (rest : List Nat) :
    strncmp (lit "true" ++ rest) (lit "true") (lit "true").length = 0 := by
  rw [lit_true_eq]
  simp [strncmp]

theorem strncmp_false_vs_true (rest : List Nat) :
    strncmp (lit "false" ++ rest) (lit "true") (lit "false").length ≠ 0 := by
  rw [lit_true_eq, lit_false_eq]
  simp [strncmp]

theorem strncmp_false_exact (rest : List Nat) :
    strncmp (lit "false" ++ rest) (lit "false") (lit "false").length = 0 := by
  rw [lit_false_eq]
  simp [strncmp]

/-- A string without NUL that is followed by a NUL is read back whole. -/
theorem cstr_append_nul (l rest : List Nat) (h : ∀ c ∈ l, c ≠ 0) :
    cstr (l ++ 0 :: rest) = l := by
  induction l with
  | nil => simp [cstr]
  | cons c l ih =>
    have hc : c ≠ 0 := h c (List.mem_cons_self c l)
    have hl : ∀ d ∈ l, d ≠ 0 := fun d hd => h d (List.mem_cons_of_mem c hd)
    have ih2 := ih hl
    simp only [cstr] at ih2 ⊢
    simp [List.takeWhile_cons, hc, ih2]

theorem cstr_no_nul (p : List Nat) : ∀ c ∈ cstr p, c ≠ 0 := by
  intro c hc
  have h := List.mem_takeWhile_imp hc
  simpa using h

theorem format_topic_no_nul (device_id : List Nat) : ∀ c ∈ format_topic device_id, c ≠ 0 := by
  intro c hc
  simp only [format_topic, List.mem_append] at hc
  rcases hc with (hc | hc) | hc
  · have h : ∀ d ∈ lit "home/devices/", d ≠ 0 := by decide
    exact h c hc
  · exact cstr_no_nul device_id c hc
  · have h : ∀ d ∈ lit "/command/setLed", d ≠ 0 := by decide
    exact h c hc

/-- What `snprintf` leaves in the buffer, read back as a C string. -/
theorem cstr_snprintf (buf out : List Nat) (size : Nat) (hs : size ≠ 0)
    (h : ∀ c ∈ out, c ≠ 0) :
    cstr (snprintf buf size out) = out.take (size - 1) := by
  have ht : ∀ c ∈ out.take (size - 1), c ≠ 0 := fun c hc => h c (List.mem_of_mem_take hc)
  simp only [snprintf, hs, if_false, List.append_assoc, List.singleton_append]
  exact cstr_append_nul _ _ ht

theorem length_snprintf (buf out : List Nat) (size : Nat) (hs : size ≠ 0)
    (hb : buf.length = size) : (snprintf buf size out).length = size := by
  simp only [snprintf, hs, if_false, List.length_append, List.length_take, List.length_drop,
    List.length_singleton, hb]
  omega

theorem format_topic_device_id : format_topic MQTT_DEVICE_ID = canonicalTopic := by decide

/-- The command topic stored by a session-connected event of the compiled
handler. -/
theorem connected_topic (st : State) (args : Option gpio_num_t) (e : esp_mqtt_event_t) :
    cstr (network_mqtt_event_handler_cb st args .MQTT_EVENT_CONNECTED e).1.current_led_command_topic
      = canonicalTopic := by
  simp only [network_mqtt_event_handler_cb, mqtt_event_handler_body]
  rw [cstr_snprintf _ _ _ (by decide) (format_topic_no_nul _), format_topic_device_id]
  decide

/-- Writing the same output twice leaves the buffer as after the first write. -/
theorem snprintf_idem (buf out : List Nat) (size : Nat) :
    snprintf (snprintf buf size out) size out = snprintf buf size out := by
  by_cases hs : size = 0
  · simp [snprintf, hs]
  · simp only [snprintf, hs, if_false]
    rw [List.drop_left]

/-- A device identity of 72 bytes, one more than fits. -/
def longIdentity : List Nat := List.replicate 72 97

theorem format_topic_length (device_id : List Nat) :
    (format_topic device_id).length = 28 + (cstr device_id).length := by
  have h1 : (lit "home/devices/").length = 13 := by decide
  have h2 : (lit "/command/setLed").length = 15 := by decide
  simp only [format_topic, List.length_append, h1, h2]
  omega

/-! ## The session and link states of the specification

The handlers keep no session or link state. The two trackers below follow
the specification's wording and are computed from the handled events only,
to state what the specification expects of the handlers. -/

/-- Session phases of the specification, as far as message dispatch goes. -/
inductive SessionPhase where
  | NotConnected
  | Subscribing
  | Ready
  deriving DecidableEq, Repr

/-- Specification: a session-connected event leads to Subscribing, its
subscribed event to Ready, a session-disconnected event back out of both. -/
def sessionPhaseStep : SessionPhase → Event → SessionPhase
  | _, .session _ .MQTT_EVENT_CONNECTED _ => .Subscribing
  | .Subscribing, .session _ .MQTT_EVENT_SUBSCRIBED _ => .Ready
  | _, .session _ .MQTT_EVENT_DISCONNECTED _ => .NotConnected
  | p, _ => p

def sessionPhase (evs : List Event) : SessionPhase :=
  evs.foldl sessionPhaseStep .NotConnected

/-- Specification: a link down event forces the session back to
Disconnected, where it stays until the next session-connected event. -/
def linkDownPendingStep : Bool → Event → Bool
  | _, .link _ (.WIFI_EVENT .WIFI_EVENT_STA_DISCONNECTED) _ => true
  | _, .session _ .MQTT_EVENT_CONNECTED _ => false
  | b, _ => b

def linkDownPending (evs : List Event) : Bool :=
  evs.foldl linkDownPendingStep false

/-- Whether the event is a session-connected event. -/
def isSessionConnected : Event → Bool
  | .session _ .MQTT_EVENT_CONNECTED _ => true
  | _ => false

/-- The calls of a trace other than logging. -/
def nonLogCalls (tr : List Effect) : List Effect :=
  tr.filter (fun e => match e with | .log _ => false | _ => true)

/-- An event record with empty topic and payload. -/
def emptyEvent : esp_mqtt_event_t := messageEvent none [] [] [] []

/-- Only a session-connected event writes the stored command topic. -/
theorem step_topic_unchanged (st : State) (ev : Event) (h : isSessionConnected ev = false) :
    (step st ev).1.current_led_command_topic = st.current_led_command_topic := by
  cases ev with
  | link arg event init_result =>
    simp only [step, wifi_event_handler_internal]
    split <;> simp [network_mqtt_app_start]
  | session args event_id event =>
    cases event_id <;>
      simp_all [step, network_mqtt_event_handler_cb, mqtt_event_handler_body, isSessionConnected]

theorem run_topic_unchanged (st : State) (evs : List Event)
    (h : evs.any isSessionConnected = false) :
    (run st evs).1.current_led_command_topic = st.current_led_command_topic := by
  induction evs generalizing st with
  | nil => simp [run]
  | cons ev evs ih =>
    simp only [List.any_cons, Bool.or_eq_false_iff] at h
    simp only [run]
    rw [ih _ h.2, step_topic_unchanged _ _ h.1]

/-- Against an empty stored string only an empty topic compares equal. -/
theorem strncmp_empty_stored (topic : List Nat) (n k : Nat) (hn : n ≠ 0)
    (h0 : topic.headD 0 ≠ 0) : strncmp topic (List.replicate (k + 1) 0) n ≠ 0 := by
  cases n with
  | zero => exact absurd rfl hn
  | succ m =>
    have h1 : topic.head?.getD 0 ≠ 0 := by simpa using h0
    simp only [strncmp, List.replicate_succ, List.headD_cons]
    simp [h1]

/-- The link connect requests of a trace (`esp_wifi_connect`). -/
def linkConnectCalls (tr : List Effect) : List Effect :=
  tr.filter (fun e => match e with | .esp_wifi_connect => true | _ => false)

/-- The trace of a run is the trace of its first event followed by the trace
of the rest. -/
theorem run_cons_trace (st : State) (ev : Event) (evs : List Event) :
    (run st (ev :: evs)).2 = (step st ev).2 ++ (run (step st ev).1 evs).2 := rfl

/-- A run of link down events issues one link connect request per event. -/
theorem linkConnectCalls_replicate_down (st : State) (arg : Option gpio_num_t)
    (init_result : esp_mqtt_client_handle_t) (n : Nat) :
    (linkConnectCalls (run st (List.replicate n
        (Event.link arg (.WIFI_EVENT .WIFI_EVENT_STA_DISCONNECTED) init_result))).2).length
      = n := by
  induction n generalizing st with
  | zero => simp [run, linkConnectCalls]
  | succ n ih =>
    rw [List.replicate_succ, run_cons_trace]
    have hstep : step st (Event.link arg (.WIFI_EVENT .WIFI_EVENT_STA_DISCONNECTED) init_result)
        = (st, [Effect.log .wifi_disconnected_trying_to_reconnect, Effect.esp_wifi_connect]) := rfl
    rw [hstep]
    have ih2 := ih st
    simp only [linkConnectCalls] at ih2 ⊢
    simp [List.filter_append, ih2]

/-! ## network_get_led_command_topic -/

/-- Number of values of `size_t` on the 32-bit target. -/
def SIZE_T_RANGE : Nat := 2 ^ 32

/-- Libc `strncpy(dest, src, n)`: exactly `n` bytes of `dest` are written, the
bytes of the string at `src` (at most `n` of them) and then NUL padding; the
bytes of `dest` from offset `n` on are left as they were. -/
def strncpy (dest src : List Nat) (n : Nat) : List Nat :=
  let s := (cstr src).take n
  s ++ List.replicate (n - s.length) 0 ++ dest.drop n

/-- The store `p[i] = c`. -/
def storeByte (p : List Nat) (i c : Nat) : List Nat :=
  p.take i ++ [c] ++ p.drop (i + 1)

/-- `network_get_led_command_topic`. The first component is the returned
pointer, `some` of the bytes found at the caller's buffer or `none` for NULL;
the second is the caller's buffer after the call. `buffer_size - 1` is
computed in `size_t`. -/
def network_get_led_command_topic (st : State) (buffer : List Nat) (buffer_size : Nat) :
    Option (List Nat) × List Nat :=
  if strlen st.current_led_command_topic > 0 then
    let n := (buffer_size + SIZE_T_RANGE - 1) % SIZE_T_RANGE
    let b1 := strncpy buffer st.current_led_command_topic n
    let b2 := storeByte b1 n 0
    (some b2, b2)
  else
    (none, buffer)

theorem replicate_zero_append_nul (k : Nat) (rest : List Nat) :
    List.replicate k 0 ++ 0 :: rest = 0 :: (List.replicate k 0 ++ rest) := by
  induction k with
  | zero => rfl
  | succ k ih => simp [List.replicate_succ, ih]

theorem size_minus_one (buffer_size : Nat) (h1 : 1 ≤ buffer_size)
    (h2 : buffer_size < SIZE_T_RANGE) :
    (buffer_size + SIZE_T_RANGE - 1) % SIZE_T_RANGE = buffer_size - 1 := by
  have h : buffer_size + SIZE_T_RANGE - 1 = (buffer_size - 1) + SIZE_T_RANGE := by omega
  rw [h, Nat.add_mod_right, Nat.mod_eq_of_lt (by omega)]

/-- The buffer after `strncpy(buffer, src, n); buffer[n] = 0`, read back. -/
theorem cstr_storeByte_strncpy (dest src : List Nat) (n : Nat) :
    cstr (storeByte (strncpy dest src n) n 0) = (cstr src).take n := by
  have hlen : ((cstr src).take n).length ≤ n := by simp [List.length_take]
  have htake : (strncpy dest src n).take n
      = (cstr src).take n ++ List.replicate (n - ((cstr src).take n).length) 0 := by
    simp only [strncpy]
    rw [List.take_left']
    simp only [List.length_append, List.length_replicate]
    omega
  have hnn : ∀ c ∈ (cstr src).take n, c ≠ 0 :=
    fun c hc => cstr_no_nul src c (List.mem_of_mem_take hc)
  simp only [storeByte, htake, List.append_assoc, List.singleton_append]
  rw [replicate_zero_append_nul]
  exact cstr_append_nul _ _ hnn

theorem length_storeByte_strncpy (dest src : List Nat) (n : Nat)
    (h : dest.length = n + 1) :
    (storeByte (strncpy dest src n) n 0).length = n + 1 := by
  have hlen : ((cstr src).take n).length ≤ n := by simp [List.length_take]
  simp only [storeByte, strncpy, List.length_append, List.length_take, List.length_drop,
    List.length_replicate, List.length_singleton, List.length_cons, List.length_nil] at hlen ⊢
  omega

theorem get_storeByte_strncpy (dest src : List Nat) (n : Nat) :
    (storeByte (strncpy dest src n) n 0).get? n = some 0 := by
  have hlen : ((cstr src).take n).length ≤ n := by simp [List.length_take]
  have hl : ((strncpy dest src n).take n).length = n := by
    simp only [strncpy, List.length_take, List.length_append, List.length_replicate,
      List.length_drop] at hlen ⊢
    omega
  simp only [storeByte, List.append_assoc, List.singleton_append]
  rw [List.get?_eq_getElem?, List.getElem?_append_right (by omega)]
  simp [hl]

/-- The getter on a state with a non-empty stored topic, for a `size_t`
buffer size of at least 1. -/
theorem get_topic_nonempty (st : State) (buffer : List Nat) (buffer_size : Nat)
    (hS : 0 < strlen st.current_led_command_topic) (h1 : 1 ≤ buffer_size)
    (h2 : buffer_size < SIZE_T_RANGE) :
    network_get_led_command_topic st buffer buffer_size
      = (some (storeByte (strncpy buffer st.current_led_command_topic (buffer_size - 1))
                (buffer_size - 1) 0),
         storeByte (strncpy buffer st.current_led_command_topic (buffer_size - 1))
                (buffer_size - 1) 0) := by
  simp only [network_get_led_command_topic, hS, if_true, size_minus_one buffer_size h1 h2]

/-- When `strncmp` against a literal returns 0: either the `n` bytes compared
are the first `n` bytes of the literal, or `n` exceeds the literal and the
bytes compared start with the literal followed by a NUL. -/
theorem strncmp_literal_iff (l : List Nat) (hl : ∀ c ∈ l, c ≠ 0) (d : List Nat) (n : Nat)
    (hn : n ≤ d.length) :
    strncmp d l n = 0 ↔
      (n ≤ l.length ∧ d.take n = l.take n)
      ∨ (l.length + 1 ≤ n ∧ d.take (l.length + 1) = l ++ [0]) := by
  induction l generalizing d n with
  | nil =>
    cases n with
    | zero => simp [strncmp]
    | succ m =>
      cases d with
      | nil => simp at hn
      | cons a d =>
        by_cases ha : a = 0
        · simp [strncmp, ha]
        · simp [strncmp, ha]
  | cons c l ih =>
    have hc : c ≠ 0 := hl c (List.mem_cons_self c l)
    have hl2 : ∀ x ∈ l, x ≠ 0 := fun x hx => hl x (List.mem_cons_of_mem c hx)
    cases n with
    | zero => simp [strncmp]
    | succ m =>
      cases d with
      | nil => simp at hn
      | cons a d =>
        have hm : m ≤ d.length := by simpa using hn
        by_cases hac : a = c
        · subst hac
          have key := ih hl2 d m hm
          simp only [strncmp, List.headD_cons, List.tail_cons, ne_eq, not_true_eq_false,
            if_false, hc]
          rw [key]
          simp
        · have hne : (a : Int) - (c : Int) ≠ 0 := by
            intro h
            apply hac
            omega
          simp [strncmp, hac, hne]

/-- The actuator calls of a message event on a matching topic with the pin
bound, as decided by the two payload comparisons. -/
theorem data_actuatorCalls (st : State) (pin : gpio_num_t) (e : esp_mqtt_event_t)
    (htopic : strncmp e.topic st.current_led_command_topic e.topic_len = 0) :
    actuatorCalls (network_mqtt_event_handler_cb st (some pin) .MQTT_EVENT_DATA e).2
      = if strncmp e.data (lit "true") e.data_len = 0 then [Effect.gpio_set_level pin 1]
        else if strncmp e.data (lit "false") e.data_len = 0 then [Effect.gpio_set_level pin 0]
        else [] := by
  simp only [network_mqtt_event_handler_cb, mqtt_event_handler_body, htopic, if_true]
  by_cases h1 : strncmp e.data (lit "true") e.data_len = 0
  · simp [h1, actuatorCalls, led_set_state]
  · by_cases h2 : strncmp e.data (lit "false") e.data_len = 0
    · simp [h1, h2, actuatorCalls, led_set_state]
    · simp [h1, h2, actuatorCalls]

theorem strncmp_true_prefix (k : Fin 4) (rest : List Nat) :
    strncmp ((lit "true").take k ++ rest) (lit "true") ((lit "true").take k).length = 0 := by
  rw [lit_true_eq]
  fin_cases k <;> simp [strncmp]

theorem strncmp_false_prefix (k : Fin 4) (rest : List Nat) :
    strncmp ((lit "false").take (k + 1) ++ rest) (lit "false")
      ((lit "false").take (k + 1)).length = 0 := by
  rw [lit_false_eq]
  fin_cases k <;> simp [strncmp]

theorem strncmp_false_prefix_vs_true (k : Fin 4) (rest : List Nat) :
    strncmp ((lit "false").take (k + 1) ++ rest) (lit "true")
      ((lit "false").take (k + 1)).length ≠ 0 := by
  rw [lit_false_eq, lit_true_eq]
  fin_cases k <;> simp [strncmp]

/-! ## Claims -/

/-- C1: on the command topic, with the pin bound, the empty payload is not
reported as invalid: the handler matches it against the literal "true" over
zero bytes and switches the output on. The payloads "TRUE", "true " and "on"
cause no actuator call. -/
theorem C1_empty_payload_switches_on :
    (network_mqtt_event_handler_cb connectedState (some 15) .MQTT_EVENT_DATA
        (messageEvent none canonicalTopic [] [] [])).2
      = [Effect.log .mqtt_event_data, Effect.log .printf_topic, Effect.log .printf_data,
         Effect.log .received_command_for_led, Effect.gpio_set_level 15 1,
         Effect.log .led_turned_on]
    ∧ actuatorCalls (network_mqtt_event_handler_cb connectedState (some 15) .MQTT_EVENT_DATA
        (messageEvent none canonicalTopic [] (lit "TRUE") [])).2 = []
    ∧ actuatorCalls (network_mqtt_event_handler_cb connectedState (some 15) .MQTT_EVENT_DATA
        (messageEvent none canonicalTopic [] (lit "true ") [])).2 = []
    ∧ actuatorCalls (network_mqtt_event_handler_cb connectedState (some 15) .MQTT_EVENT_DATA
        (messageEvent none canonicalTopic [] (lit "on") [])).2 = [] := by
  decide

/-- C2: for a message whose topic is the stored command topic and with the
pin bound, the payload "true" (4 bytes) makes the handler call
led_set_state(pin, true) once and nothing else on the actuator: the only
actuator call of the trace is gpio_set_level(pin, 1), which is what
led_set_state(pin, true) does. The payload "false" (5 bytes) makes it call
led_set_state(pin, false) once and nothing else on the actuator: the only
actuator call of the trace is gpio_set_level(pin, 0), which is what
led_set_state(pin, false) does. -/
theorem C2_true_false_dispatch (st : State) (pin : gpio_num_t)
    (client : esp_mqtt_client_handle_t) (topicRest payloadRest : List Nat) :
    actuatorCalls (network_mqtt_event_handler_cb st (some pin) .MQTT_EVENT_DATA
        (messageEvent client (cstr st.current_led_command_topic) topicRest
          (lit "true") payloadRest)).2 = [Effect.gpio_set_level pin 1]
    ∧ led_set_state pin true = [Effect.gpio_set_level pin 1]
    ∧ (network_mqtt_event_handler_cb st (some pin) .MQTT_EVENT_DATA
        (messageEvent client (cstr st.current_led_command_topic) topicRest
          (lit "true") payloadRest)).2
      = [Effect.log .mqtt_event_data, Effect.log .printf_topic, Effect.log .printf_data,
         Effect.log .received_command_for_led, Effect.gpio_set_level pin 1,
         Effect.log .led_turned_on]
    ∧ actuatorCalls (network_mqtt_event_handler_cb st (some pin) .MQTT_EVENT_DATA
        (messageEvent client (cstr st.current_led_command_topic) topicRest
          (lit "false") payloadRest)).2 = [Effect.gpio_set_level pin 0]
    ∧ led_set_state pin false = [Effect.gpio_set_level pin 0]
    ∧ (network_mqtt_event_handler_cb st (some pin) .MQTT_EVENT_DATA
        (messageEvent client (cstr st.current_led_command_topic) topicRest
          (lit "false") payloadRest)).2
      = [Effect.log .mqtt_event_data, Effect.log .printf_topic, Effect.log .printf_data,
         Effect.log .received_command_for_led, Effect.gpio_set_level pin 0,
         Effect.log .led_turned_off] := by
  refine ⟨?_, ?_, ?_, ?_, ?_, ?_⟩
  · simp [network_mqtt_event_handler_cb, mqtt_event_handler_body, messageEvent,
      strncmp_cstr_self, strncmp_true_exact, actuatorCalls, led_set_state]
  · simp [led_set_state]
  · simp [network_mqtt_event_handler_cb, mqtt_event_handler_body, messageEvent,
      strncmp_cstr_self, strncmp_true_exact, led_set_state]
  · simp [network_mqtt_event_handler_cb, mqtt_event_handler_body, messageEvent,
      strncmp_cstr_self, strncmp_false_exact, strncmp_false_vs_true, actuatorCalls,
      led_set_state]
  · simp [led_set_state]
  · simp [network_mqtt_event_handler_cb, mqtt_event_handler_body, messageEvent,
      strncmp_cstr_self, strncmp_false_exact, strncmp_false_vs_true, led_set_state]

/-- C3: after a session-connected event, a message whose topic is the 4 bytes
"home" (a proper prefix of the command topic), or whose reported topic length
is 0, is not ignored: its payload "true" is matched and the output is
switched on. -/
theorem C3_prefix_topic_dispatched :
    actuatorCalls (network_mqtt_event_handler_cb connectedState (some 15) .MQTT_EVENT_DATA
        (messageEvent none (lit "home") [] (lit "true") [])).2
      = [Effect.gpio_set_level 15 1]
    ∧ actuatorCalls (network_mqtt_event_handler_cb connectedState (some 15) .MQTT_EVENT_DATA
        (messageEvent none [] [] (lit "true") [])).2
      = [Effect.gpio_set_level 15 1] := by
  decide


/-- C4: after a session-connected event the stored command topic is
"home/devices/" ++ identity ++ "/command/setLed" for the configured identity,
which is "home/devices/esp32_led_controller_01/command/setLed", and the
handler has issued exactly one subscribe request, for that topic at QoS 0. -/
theorem C4_connected_topic_and_subscribe (st : State) (args : Option gpio_num_t)
    (e : esp_mqtt_event_t) :
    cstr (network_mqtt_event_handler_cb st args .MQTT_EVENT_CONNECTED e).1.current_led_command_topic
      = lit "home/devices/" ++ MQTT_DEVICE_ID ++ lit "/command/setLed"
    ∧ lit "home/devices/" ++ MQTT_DEVICE_ID ++ lit "/command/setLed"
      = lit "home/devices/esp32_led_controller_01/command/setLed"
    ∧ subscribeCalls (network_mqtt_event_handler_cb st args .MQTT_EVENT_CONNECTED e).2
      = [Effect.esp_mqtt_client_subscribe e.client
          (lit "home/devices/esp32_led_controller_01/command/setLed") 0] := by
  have h := connected_topic st args e
  refine ⟨?_, by decide, ?_⟩
  · rw [h]; decide
  · simp only [network_mqtt_event_handler_cb, mqtt_event_handler_body] at h ⊢
    simp [subscribeCalls, h, canonicalTopic]


/-- C5 (as stated, refuted): for the 72-byte identity the session-connected
event stores a command topic that is the first 99 bytes of the full topic,
not the full topic, and subscribes to that truncated string. -/
theorem C5_long_identity_is_truncated :
    cstr (mqtt_event_handler_body longIdentity State.init none .MQTT_EVENT_CONNECTED
        (messageEvent none [] [] [] [])).1.current_led_command_topic
      = (format_topic longIdentity).take 99
    ∧ (format_topic longIdentity).take 99 ≠ format_topic longIdentity
    ∧ subscribeCalls (mqtt_event_handler_body longIdentity State.init none .MQTT_EVENT_CONNECTED
        (messageEvent none [] [] [] [])).2
      = [Effect.esp_mqtt_client_subscribe none ((format_topic longIdentity).take 99) 0] := by
  decide

/-- C5 (amended): for every identity longer than 71 bytes the topic builder
does not fail: the session-connected event stores the first 99 bytes of the
full topic followed by a NUL, which is not the full topic, issues one
subscribe request for that truncated string, and the 100-byte buffer keeps
its size. -/
theorem C5_long_identity_truncates (device_id : List Nat) (st : State)
    (args : Option gpio_num_t) (e : esp_mqtt_event_t)
    (hlen : 71 < (cstr device_id).length)
    (hbuf : st.current_led_command_topic.length = TOPIC_BUFFER_SIZE) :
    cstr (mqtt_event_handler_body device_id st args .MQTT_EVENT_CONNECTED e).1.current_led_command_topic
      = (format_topic device_id).take 99
    ∧ (format_topic device_id).take 99 ≠ format_topic device_id
    ∧ subscribeCalls (mqtt_event_handler_body device_id st args .MQTT_EVENT_CONNECTED e).2
      = [Effect.esp_mqtt_client_subscribe e.client ((format_topic device_id).take 99) 0]
    ∧ (mqtt_event_handler_body device_id st args .MQTT_EVENT_CONNECTED e).1.current_led_command_topic.length
      = TOPIC_BUFFER_SIZE := by
  have hc : cstr (snprintf st.current_led_command_topic TOPIC_BUFFER_SIZE (format_topic device_id))
      = (format_topic device_id).take 99 :=
    cstr_snprintf _ _ _ (by decide) (format_topic_no_nul _)
  refine ⟨?_, ?_, ?_, ?_⟩
  · simpa [mqtt_event_handler_body] using hc
  · intro h
    have hl := congrArg List.length h
    rw [List.length_take, format_topic_length] at hl
    omega
  · simp [mqtt_event_handler_body, subscribeCalls, hc]
  · simpa [mqtt_event_handler_body] using length_snprintf _ _ _ (by decide) hbuf

theorem C5_long_identity_truncates_witness :
    cstr (mqtt_event_handler_body longIdentity State.init none .MQTT_EVENT_CONNECTED
        (messageEvent none [] [] [] [])).1.current_led_command_topic
      = (format_topic longIdentity).take 99
    ∧ (format_topic longIdentity).take 99 ≠ format_topic longIdentity
    ∧ subscribeCalls (mqtt_event_handler_body longIdentity State.init none .MQTT_EVENT_CONNECTED
        (messageEvent none [] [] [] [])).2
      = [Effect.esp_mqtt_client_subscribe (messageEvent none [] [] [] []).client
          ((format_topic longIdentity).take 99) 0]
    ∧ (mqtt_event_handler_body longIdentity State.init none .MQTT_EVENT_CONNECTED
        (messageEvent none [] [] [] [])).1.current_led_command_topic.length
      = TOPIC_BUFFER_SIZE :=
  C5_long_identity_truncates longIdentity State.init none (messageEvent none [] [] [] [])
    (by decide) (by decide)

/-- C6: whatever events were handled before, a session-connected event makes
the handler issue one subscribe request, always for the same topic, the
canonical command topic of the identity; handling the connected event a
second time leaves the state (stored command topic included) as the first
handling left it. -/
theorem C6_resubscribe_idempotent (st0 : State) (pre : List Event)
    (args args2 : Option gpio_num_t) (e e2 : esp_mqtt_event_t) :
    subscribeCalls (network_mqtt_event_handler_cb (run st0 pre).1 args .MQTT_EVENT_CONNECTED e).2
      = [Effect.esp_mqtt_client_subscribe e.client (format_topic MQTT_DEVICE_ID) 0]
    ∧ (network_mqtt_event_handler_cb
        (network_mqtt_event_handler_cb (run st0 pre).1 args .MQTT_EVENT_CONNECTED e).1
        args2 .MQTT_EVENT_CONNECTED e2).1
      = (network_mqtt_event_handler_cb (run st0 pre).1 args .MQTT_EVENT_CONNECTED e).1 := by
  have h := connected_topic (run st0 pre).1 args e
  constructor
  · simp only [network_mqtt_event_handler_cb, mqtt_event_handler_body] at h ⊢
    rw [format_topic_device_id] at h ⊢
    simp [subscribeCalls, h]
  · simp [network_mqtt_event_handler_cb, mqtt_event_handler_body, snprintf_idem]

/-- C7: from the initial state, with the pin bound, the events session
connected, subscribed, then a message on the canonical command topic with
payload "true" produce exactly one actuator call in the whole trace, and it
sets the pin to 1, which is led_set_state(pin, true). -/
theorem C7_scenario_connect_subscribe_true (pin : gpio_num_t)
    (e1 e2 : esp_mqtt_event_t) (client : esp_mqtt_client_handle_t)
    (topicRest payloadRest : List Nat) :
    actuatorCalls (run State.init
        [Event.session (some pin) .MQTT_EVENT_CONNECTED e1,
         Event.session (some pin) .MQTT_EVENT_SUBSCRIBED e2,
         Event.session (some pin) .MQTT_EVENT_DATA
           (messageEvent client canonicalTopic topicRest (lit "true") payloadRest)]).2
      = led_set_state pin true
    ∧ led_set_state pin true = [Effect.gpio_set_level pin 1] := by
  have h := connected_topic State.init (some pin) e1
  have hs := strncmp_cstr_self
    (network_mqtt_event_handler_cb State.init (some pin) .MQTT_EVENT_CONNECTED e1).1.current_led_command_topic
    topicRest
  rw [h] at hs
  simp only [network_mqtt_event_handler_cb, mqtt_event_handler_body] at hs
  simp [run, step, network_mqtt_event_handler_cb, mqtt_event_handler_body, messageEvent,
    actuatorCalls, led_set_state, hs, strncmp_true_exact]


/-- C8 (as stated, refuted): after the events session connected, subscribed
and disconnected the session is not Ready, yet a message on the command
topic with payload "true" makes the handler switch the output on. -/
theorem C8_dispatch_after_disconnect :
    sessionPhase
        [Event.session (some 15) .MQTT_EVENT_CONNECTED emptyEvent,
         Event.session (some 15) .MQTT_EVENT_SUBSCRIBED emptyEvent,
         Event.session (some 15) .MQTT_EVENT_DISCONNECTED emptyEvent] ≠ SessionPhase.Ready
    ∧ actuatorCalls (network_mqtt_event_handler_cb
        (run State.init
          [Event.session (some 15) .MQTT_EVENT_CONNECTED emptyEvent,
           Event.session (some 15) .MQTT_EVENT_SUBSCRIBED emptyEvent,
           Event.session (some 15) .MQTT_EVENT_DISCONNECTED emptyEvent]).1
        (some 15) .MQTT_EVENT_DATA
        (messageEvent none canonicalTopic [] (lit "true") [])).2
      = [Effect.gpio_set_level 15 1] := by
  decide

/-- C8 (amended): the handler keeps no session state: a message event whose
topic does not compare equal to the stored command topic (strncmp over
topic_len bytes) causes no actuator call. The stored topic is empty until the
first session-connected event, so a message whose reported topic length is
not 0 and whose first topic byte is not NUL, handled before any
session-connected event, causes no actuator call, whatever its payload. A
session-disconnected event leaves the state as it was, so every event
handled after it, a message included, is handled exactly as before it. -/
theorem C8_dispatch_gated_by_stored_topic (pre : List Event) (st : State)
    (args args2 args3 args4 : Option gpio_num_t) (e e2 e3 e4 : esp_mqtt_event_t)
    (event_id : esp_mqtt_event_id_t)
    (hpre : pre.any isSessionConnected = false)
    (hlen : e.topic_len ≠ 0) (hfirst : e.topic.headD 0 ≠ 0)
    (hne : strncmp e3.topic st.current_led_command_topic e3.topic_len ≠ 0) :
    actuatorCalls (network_mqtt_event_handler_cb (run State.init pre).1 args
        .MQTT_EVENT_DATA e).2 = []
    ∧ cstr (run State.init pre).1.current_led_command_topic = []
    ∧ actuatorCalls (network_mqtt_event_handler_cb st args3 .MQTT_EVENT_DATA e3).2 = []
    ∧ (network_mqtt_event_handler_cb st args2 .MQTT_EVENT_DISCONNECTED e2).1 = st
    ∧ network_mqtt_event_handler_cb
        (network_mqtt_event_handler_cb st args2 .MQTT_EVENT_DISCONNECTED e2).1
        args4 event_id e4
      = network_mqtt_event_handler_cb st args4 event_id e4 := by
  have ht := run_topic_unchanged State.init pre hpre
  refine ⟨?_, ?_, ?_, ?_, ?_⟩
  · have hs : strncmp e.topic (run State.init pre).1.current_led_command_topic e.topic_len ≠ 0 := by
      rw [ht]
      exact strncmp_empty_stored e.topic e.topic_len 99 hlen hfirst
    simp [network_mqtt_event_handler_cb, mqtt_event_handler_body, hs, actuatorCalls]
  · rw [ht]
    decide
  · simp [network_mqtt_event_handler_cb, mqtt_event_handler_body, hne, actuatorCalls]
  · simp [network_mqtt_event_handler_cb, mqtt_event_handler_body]
  · rfl

theorem C8_dispatch_gated_by_stored_topic_witness :
    actuatorCalls (network_mqtt_event_handler_cb
        (run State.init
          [Event.link none (.WIFI_EVENT .WIFI_EVENT_STA_START) none,
           Event.session (some 15) .MQTT_EVENT_SUBSCRIBED emptyEvent]).1
        (some 15) .MQTT_EVENT_DATA
        (messageEvent none canonicalTopic [] (lit "true") [])).2 = []
    ∧ cstr (run State.init
          [Event.link none (.WIFI_EVENT .WIFI_EVENT_STA_START) none,
           Event.session (some 15) .MQTT_EVENT_SUBSCRIBED emptyEvent]).1.current_led_command_topic
        = []
    ∧ actuatorCalls (network_mqtt_event_handler_cb connectedState (some 15) .MQTT_EVENT_DATA
        (messageEvent none (lit "home/other") [] (lit "true") [])).2 = []
    ∧ (network_mqtt_event_handler_cb connectedState (some 15)
        .MQTT_EVENT_DISCONNECTED emptyEvent).1 = connectedState
    ∧ network_mqtt_event_handler_cb
        (network_mqtt_event_handler_cb connectedState (some 15)
          .MQTT_EVENT_DISCONNECTED emptyEvent).1
        (some 15) .MQTT_EVENT_DATA (messageEvent none canonicalTopic [] (lit "true") [])
      = network_mqtt_event_handler_cb connectedState
        (some 15) .MQTT_EVENT_DATA (messageEvent none canonicalTopic [] (lit "true") []) :=
  C8_dispatch_gated_by_stored_topic
    [Event.link none (.WIFI_EVENT .WIFI_EVENT_STA_START) none,
     Event.session (some 15) .MQTT_EVENT_SUBSCRIBED emptyEvent]
    connectedState (some 15) (some 15) (some 15) (some 15)
    (messageEvent none canonicalTopic [] (lit "true") []) emptyEvent
    (messageEvent none (lit "home/other") [] (lit "true") [])
    (messageEvent none canonicalTopic [] (lit "true") [])
    .MQTT_EVENT_DATA
    (by decide) (by decide) (by decide) (by decide)

/-- C9 (as stated, refuted): after a session-connected event followed by a
link down event, with no session-connected event since, a message on the
command topic with payload "true" is still dispatched to the actuator; and
with no link event handled at all a session-connected event is acted upon
with a subscribe request. -/
theorem C9_dispatch_after_link_down :
    linkDownPending
        [Event.session (some 15) .MQTT_EVENT_CONNECTED emptyEvent,
         Event.link none (.WIFI_EVENT .WIFI_EVENT_STA_DISCONNECTED) none] = true
    ∧ actuatorCalls (network_mqtt_event_handler_cb
        (run State.init
          [Event.session (some 15) .MQTT_EVENT_CONNECTED emptyEvent,
           Event.link none (.WIFI_EVENT .WIFI_EVENT_STA_DISCONNECTED) none]).1
        (some 15) .MQTT_EVENT_DATA
        (messageEvent none canonicalTopic [] (lit "true") [])).2
      = [Effect.gpio_set_level 15 1]
    ∧ subscribeCalls (run State.init
        [Event.session (some 15) .MQTT_EVENT_CONNECTED emptyEvent]).2
      = [Effect.esp_mqtt_client_subscribe none canonicalTopic 0] := by
  decide

/-- C9 (amended): the handlers keep no link or session state. A link down
event only logs and re-requests a link connect; it leaves the stored command
topic and the client handle as they were, so every session event handled
after it, a message included, is handled exactly as it would have been
before it. -/
theorem C9_link_down_keeps_state (st : State) (arg args : Option gpio_num_t)
    (init_result : esp_mqtt_client_handle_t) (event_id : esp_mqtt_event_id_t)
    (e : esp_mqtt_event_t) :
    wifi_event_handler_internal st arg (.WIFI_EVENT .WIFI_EVENT_STA_DISCONNECTED) init_result
      = (st, [Effect.log .wifi_disconnected_trying_to_reconnect, Effect.esp_wifi_connect])
    ∧ network_mqtt_event_handler_cb
        (wifi_event_handler_internal st arg (.WIFI_EVENT .WIFI_EVENT_STA_DISCONNECTED)
          init_result).1 args event_id e
      = network_mqtt_event_handler_cb st args event_id e := by
  constructor <;> rfl

/-- C10 (as stated, refuted): the handler issues no session connect request
on a session-disconnected event, nor on a session error event, be it a
transport error or not. -/
theorem C10_no_reconnect_request :
    sessionConnectCalls (network_mqtt_event_handler_cb connectedState (some 15)
        .MQTT_EVENT_DISCONNECTED emptyEvent).2 = []
    ∧ sessionConnectCalls (network_mqtt_event_handler_cb connectedState (some 15)
        .MQTT_EVENT_ERROR emptyEvent).2 = []
    ∧ sessionConnectCalls (network_mqtt_event_handler_cb connectedState (some 15)
        .MQTT_EVENT_ERROR
        { emptyEvent with
          error_handle :=
            { esp_tls_last_esp_error := 0, esp_tls_stack_error := 0,
              esp_transport_sock_errno := 104,
              error_type := .MQTT_ERROR_TYPE_TCP_TRANSPORT } }).2 = [] := by
  decide

/-- C10 (amended): on a session-disconnected event the handler only logs the
event, and on a session error event it only logs the event and, for a
transport error, the error codes; in both cases it makes no call other than
logging (no connect request, no subscribe request, no actuator call) and
leaves the state as it was. -/
theorem C10_disconnect_and_error_only_log (st : State) (args : Option gpio_num_t)
    (e : esp_mqtt_event_t) :
    network_mqtt_event_handler_cb st args .MQTT_EVENT_DISCONNECTED e
      = (st, [Effect.log .mqtt_event_disconnected])
    ∧ (network_mqtt_event_handler_cb st args .MQTT_EVENT_ERROR e).1 = st
    ∧ nonLogCalls (network_mqtt_event_handler_cb st args .MQTT_EVENT_ERROR e).2 = []
    ∧ sessionConnectCalls (network_mqtt_event_handler_cb st args .MQTT_EVENT_ERROR e).2 = [] := by
  refine ⟨rfl, rfl, ?_, ?_⟩
  · simp only [network_mqtt_event_handler_cb, mqtt_event_handler_body, log_error_if_nonzero,
      nonLogCalls]
    split <;> (repeat' split) <;> simp
  · simp only [network_mqtt_event_handler_cb, mqtt_event_handler_body, log_error_if_nonzero,
      sessionConnectCalls]
    split <;> (repeat' split) <;> simp


/-- C11: whatever events were handled before, a link down event makes
wifi_event_handler_internal log and issue exactly one link connect request,
and nothing else: the handler returns with the state unchanged (the event is
not fatal) and makes no call that starts or restarts the message session. A
run of n link down events issues n link connect requests, one per event. -/
theorem C11_link_down_reconnects_once (st0 : State) (pre : List Event)
    (arg arg2 : Option gpio_num_t) (init_result init_result2 : esp_mqtt_client_handle_t)
    (n : Nat) :
    wifi_event_handler_internal (run st0 pre).1 arg
        (.WIFI_EVENT .WIFI_EVENT_STA_DISCONNECTED) init_result
      = ((run st0 pre).1,
          [Effect.log .wifi_disconnected_trying_to_reconnect, Effect.esp_wifi_connect])
    ∧ linkConnectCalls (wifi_event_handler_internal (run st0 pre).1 arg
        (.WIFI_EVENT .WIFI_EVENT_STA_DISCONNECTED) init_result).2 = [Effect.esp_wifi_connect]
    ∧ nonLogCalls (wifi_event_handler_internal (run st0 pre).1 arg
        (.WIFI_EVENT .WIFI_EVENT_STA_DISCONNECTED) init_result).2 = [Effect.esp_wifi_connect]
    ∧ sessionConnectCalls (wifi_event_handler_internal (run st0 pre).1 arg
        (.WIFI_EVENT .WIFI_EVENT_STA_DISCONNECTED) init_result).2 = []
    ∧ (linkConnectCalls (run st0 (List.replicate n
        (Event.link arg2 (.WIFI_EVENT .WIFI_EVENT_STA_DISCONNECTED) init_result2))).2).length
      = n := by
  refine ⟨rfl, ?_, ?_, ?_, linkConnectCalls_replicate_down st0 arg2 init_result2 n⟩
  · simp [wifi_event_handler_internal, linkConnectCalls]
  · simp [wifi_event_handler_internal, nonLogCalls]
  · simp [wifi_event_handler_internal, sessionConnectCalls]

/-- C13: handling a message event leaves the stored command topic and the
client handle as they were, for every topic and payload, with or without a
pin bound; the actuator call returns nothing the handler could store. -/
theorem C13_message_keeps_state (st : State) (args : Option gpio_num_t)
    (e : esp_mqtt_event_t) :
    (network_mqtt_event_handler_cb st args .MQTT_EVENT_DATA e).1 = st
    ∧ (network_mqtt_event_handler_cb st args .MQTT_EVENT_DATA e).1.current_led_command_topic
      = st.current_led_command_topic
    ∧ (network_mqtt_event_handler_cb st args .MQTT_EVENT_DATA e).1.client_handle
      = st.client_handle := by
  exact ⟨rfl, rfl, rfl⟩

/-- C15: with handler_args NULL no event of any kind makes the handler call
the actuator; in particular a message on the command topic with payload
"true" or "false" is dropped without an actuator call. -/
theorem C15_null_args_no_actuator (st : State) (event_id : esp_mqtt_event_id_t)
    (e : esp_mqtt_event_t) (client : esp_mqtt_client_handle_t)
    (topicRest payloadRest : List Nat) :
    actuatorCalls (network_mqtt_event_handler_cb st none event_id e).2 = []
    ∧ actuatorCalls (network_mqtt_event_handler_cb st none .MQTT_EVENT_DATA
        (messageEvent client (cstr st.current_led_command_topic) topicRest
          (lit "true") payloadRest)).2 = []
    ∧ actuatorCalls (network_mqtt_event_handler_cb st none .MQTT_EVENT_DATA
        (messageEvent client (cstr st.current_led_command_topic) topicRest
          (lit "false") payloadRest)).2 = []
    ∧ (network_mqtt_event_handler_cb st none .MQTT_EVENT_DATA
        (messageEvent client (cstr st.current_led_command_topic) topicRest
          (lit "true") payloadRest)).2
      = [Effect.log .mqtt_event_data, Effect.log .printf_topic, Effect.log .printf_data,
         Effect.log .received_command_for_led] := by
  have hall : ∀ (id : esp_mqtt_event_id_t) (ev : esp_mqtt_event_t),
      actuatorCalls (network_mqtt_event_handler_cb st none id ev).2 = [] := by
    intro id ev
    cases id <;>
      simp only [network_mqtt_event_handler_cb, mqtt_event_handler_body, log_error_if_nonzero,
        actuatorCalls] <;>
      (repeat' split) <;> simp
  refine ⟨hall _ _, hall _ _, hall _ _, ?_⟩
  simp [network_mqtt_event_handler_cb, mqtt_event_handler_body, messageEvent,
    strncmp_cstr_self]


/-- C12: network_get_led_command_topic returns NULL and leaves the caller's
buffer untouched when the stored command topic is empty, whatever the buffer
and its size. Otherwise, for a
buffer of buffer_size >= 1 bytes, it returns the caller's buffer, which then
holds the first buffer_size - 1 bytes of the stored command topic as a
NUL-terminated string (its byte at offset buffer_size - 1 is NUL and its
size is unchanged). After a session-connected event and with buffer_size
greater than the topic length the buffer holds exactly the canonical topic,
the one that was subscribed to. -/
theorem C12_get_led_command_topic (stE st st0 : State) (bufferE buffer buffer3 : List Nat)
    (sizeE buffer_size size3 : Nat) (args : Option gpio_num_t) (e : esp_mqtt_event_t)
    (hE : strlen stE.current_led_command_topic = 0)
    (hS : 0 < strlen st.current_led_command_topic)
    (h1 : 1 ≤ buffer_size) (h2 : buffer_size < SIZE_T_RANGE)
    (hbuf : buffer.length = buffer_size)
    (h3 : canonicalTopic.length < size3) (h4 : size3 < SIZE_T_RANGE) :
    network_get_led_command_topic stE bufferE sizeE = (none, bufferE)
    ∧ (network_get_led_command_topic st buffer buffer_size).1
        = some (network_get_led_command_topic st buffer buffer_size).2
    ∧ cstr (network_get_led_command_topic st buffer buffer_size).2
        = (cstr st.current_led_command_topic).take (buffer_size - 1)
    ∧ (network_get_led_command_topic st buffer buffer_size).2.get? (buffer_size - 1) = some 0
    ∧ (network_get_led_command_topic st buffer buffer_size).2.length = buffer_size
    ∧ (network_get_led_command_topic
          (network_mqtt_event_handler_cb st0 args .MQTT_EVENT_CONNECTED e).1 buffer3 size3).1
        = some (network_get_led_command_topic
          (network_mqtt_event_handler_cb st0 args .MQTT_EVENT_CONNECTED e).1 buffer3 size3).2
    ∧ cstr (network_get_led_command_topic
          (network_mqtt_event_handler_cb st0 args .MQTT_EVENT_CONNECTED e).1 buffer3 size3).2
        = canonicalTopic
    ∧ subscribeCalls (network_mqtt_event_handler_cb st0 args .MQTT_EVENT_CONNECTED e).2
        = [Effect.esp_mqtt_client_subscribe e.client canonicalTopic 0] := by
  have hct := connected_topic st0 args e
  have hlen51 : canonicalTopic.length = 51 := by decide
  have hS3 : 0 < strlen
      (network_mqtt_event_handler_cb st0 args .MQTT_EVENT_CONNECTED e).1.current_led_command_topic := by
    simp only [strlen, hct, hlen51]
    omega
  have g := get_topic_nonempty st buffer buffer_size hS h1 h2
  have g3 := get_topic_nonempty _ buffer3 size3 hS3 (by omega) h4
  refine ⟨?_, ?_, ?_, ?_, ?_, ?_, ?_, ?_⟩
  · simp [network_get_led_command_topic, hE]
  · rw [g]
  · rw [g]
    exact cstr_storeByte_strncpy _ _ _
  · rw [g]
    exact get_storeByte_strncpy _ _ _
  · rw [g]
    have hl := length_storeByte_strncpy buffer st.current_led_command_topic (buffer_size - 1)
      (by omega)
    show (storeByte (strncpy buffer st.current_led_command_topic (buffer_size - 1))
      (buffer_size - 1) 0).length = buffer_size
    omega
  · rw [g3]
  · rw [g3]
    simp only [cstr_storeByte_strncpy, hct]
    exact List.take_of_length_le (by omega)
  · simp only [network_mqtt_event_handler_cb, mqtt_event_handler_body] at hct ⊢
    simp [subscribeCalls, hct]

theorem C12_get_led_command_topic_witness :
    network_get_led_command_topic State.init (List.replicate 3 7) 0
        = (none, List.replicate 3 7)
    ∧ (network_get_led_command_topic connectedState (List.replicate 10 7) 10).1
        = some (network_get_led_command_topic connectedState (List.replicate 10 7) 10).2
    ∧ cstr (network_get_led_command_topic connectedState (List.replicate 10 7) 10).2
        = (cstr connectedState.current_led_command_topic).take (10 - 1)
    ∧ (network_get_led_command_topic connectedState (List.replicate 10 7) 10).2.get? (10 - 1)
        = some 0
    ∧ (network_get_led_command_topic connectedState (List.replicate 10 7) 10).2.length = 10
    ∧ (network_get_led_command_topic
          (network_mqtt_event_handler_cb State.init none .MQTT_EVENT_CONNECTED emptyEvent).1
          (List.replicate 64 7) 64).1
        = some (network_get_led_command_topic
          (network_mqtt_event_handler_cb State.init none .MQTT_EVENT_CONNECTED emptyEvent).1
          (List.replicate 64 7) 64).2
    ∧ cstr (network_get_led_command_topic
          (network_mqtt_event_handler_cb State.init none .MQTT_EVENT_CONNECTED emptyEvent).1
          (List.replicate 64 7) 64).2
        = canonicalTopic
    ∧ subscribeCalls
          (network_mqtt_event_handler_cb State.init none .MQTT_EVENT_CONNECTED emptyEvent).2
        = [Effect.esp_mqtt_client_subscribe emptyEvent.client canonicalTopic 0] :=
  C12_get_led_command_topic State.init connectedState State.init (List.replicate 3 7)
    (List.replicate 10 7) (List.replicate 64 7) 0 10 64 none emptyEvent
    (by decide) (by decide) (by decide) (by decide) (by decide) (by decide) (by decide)


/-- C14: for a message on the command topic with the pin bound, payload
bytes d and reported length n (the payload buffer holding at least n bytes),
the handler switches the output ON iff (n <= 4 and the first n bytes of d are
the first n bytes of "true") or (n >= 5 and the first five bytes of d are
"true" followed by NUL); it switches the output OFF iff that does not hold
and (n <= 5 and the first n bytes of d are the first n bytes of "false") or
(n >= 6 and the first six bytes of d are "false" followed by NUL); otherwise
it makes no actuator call. So the empty payload and every proper prefix of
"true" switch the output ON, and every non-empty proper prefix of "false"
switches it OFF. -/
theorem C14_payload_prefix_matching (st : State) (pin : gpio_num_t) (e : esp_mqtt_event_t)
    (client : esp_mqtt_client_handle_t) (topicRest payloadRest : List Nat)
    (htopic : strncmp e.topic st.current_led_command_topic e.topic_len = 0)
    (hbuf : e.data_len ≤ e.data.length) :
    (actuatorCalls (network_mqtt_event_handler_cb st (some pin) .MQTT_EVENT_DATA e).2
        = led_set_state pin true
      ↔ (e.data_len ≤ 4 ∧ e.data.take e.data_len = (lit "true").take e.data_len)
        ∨ (5 ≤ e.data_len ∧ e.data.take 5 = lit "true" ++ [0]))
    ∧ (actuatorCalls (network_mqtt_event_handler_cb st (some pin) .MQTT_EVENT_DATA e).2
        = led_set_state pin false
      ↔ ¬ ((e.data_len ≤ 4 ∧ e.data.take e.data_len = (lit "true").take e.data_len)
            ∨ (5 ≤ e.data_len ∧ e.data.take 5 = lit "true" ++ [0]))
        ∧ ((e.data_len ≤ 5 ∧ e.data.take e.data_len = (lit "false").take e.data_len)
            ∨ (6 ≤ e.data_len ∧ e.data.take 6 = lit "false" ++ [0])))
    ∧ (actuatorCalls (network_mqtt_event_handler_cb st (some pin) .MQTT_EVENT_DATA e).2 = []
      ↔ ¬ ((e.data_len ≤ 4 ∧ e.data.take e.data_len = (lit "true").take e.data_len)
            ∨ (5 ≤ e.data_len ∧ e.data.take 5 = lit "true" ++ [0]))
        ∧ ¬ ((e.data_len ≤ 5 ∧ e.data.take e.data_len = (lit "false").take e.data_len)
            ∨ (6 ≤ e.data_len ∧ e.data.take 6 = lit "false" ++ [0])))
    ∧ (∀ k : Fin 4,
        actuatorCalls (network_mqtt_event_handler_cb st (some pin) .MQTT_EVENT_DATA
          (messageEvent client (cstr st.current_led_command_topic) topicRest
            ((lit "true").take k) payloadRest)).2 = led_set_state pin true)
    ∧ (∀ k : Fin 4,
        actuatorCalls (network_mqtt_event_handler_cb st (some pin) .MQTT_EVENT_DATA
          (messageEvent client (cstr st.current_led_command_topic) topicRest
            ((lit "false").take (k + 1)) payloadRest)).2 = led_set_state pin false) := by
  have hT := strncmp_literal_iff (lit "true") (by decide) e.data e.data_len hbuf
  have hF := strncmp_literal_iff (lit "false") (by decide) e.data e.data_len hbuf
  have h4 : (lit "true").length = 4 := by decide
  have h5 : (lit "false").length = 5 := by decide
  rw [h4] at hT
  rw [h5] at hF
  have hcalls := data_actuatorCalls st pin e htopic
  refine ⟨?_, ?_, ?_, ?_, ?_⟩
  · rw [← hT, hcalls]
    by_cases h1 : strncmp e.data (lit "true") e.data_len = 0
    · simp [h1, led_set_state]
    · by_cases h2 : strncmp e.data (lit "false") e.data_len = 0
      · simp [h1, h2, led_set_state]
      · simp [h1, h2, led_set_state]
  · rw [← hT, ← hF, hcalls]
    by_cases h1 : strncmp e.data (lit "true") e.data_len = 0
    · simp [h1, led_set_state]
    · by_cases h2 : strncmp e.data (lit "false") e.data_len = 0
      · simp [h1, h2, led_set_state]
      · simp [h1, h2, led_set_state]
  · rw [← hT, ← hF, hcalls]
    by_cases h1 : strncmp e.data (lit "true") e.data_len = 0
    · simp [h1]
    · by_cases h2 : strncmp e.data (lit "false") e.data_len = 0
      · simp [h1, h2]
      · simp [h1, h2]
  · intro k
    rw [data_actuatorCalls st pin _ (by simp [messageEvent, strncmp_cstr_self])]
    have h1 := strncmp_true_prefix k payloadRest
    simp only [messageEvent]
    rw [if_pos h1]
    simp [led_set_state]
  · intro k
    rw [data_actuatorCalls st pin _ (by simp [messageEvent, strncmp_cstr_self])]
    have h1 := strncmp_false_prefix_vs_true k payloadRest
    have h2 := strncmp_false_prefix k payloadRest
    simp only [messageEvent]
    rw [if_neg h1, if_pos h2]
    simp [led_set_state]


theorem C14_payload_prefix_matching_witness :
    strncmp (messageEvent none canonicalTopic [] (lit "tr") []).topic
        connectedState.current_led_command_topic
        (messageEvent none canonicalTopic [] (lit "tr") []).topic_len = 0
    ∧ (messageEvent none canonicalTopic [] (lit "tr") []).data_len
        ≤ (messageEvent none canonicalTopic [] (lit "tr") []).data.length
    ∧ actuatorCalls (network_mqtt_event_handler_cb connectedState (some 15) .MQTT_EVENT_DATA
        (messageEvent none canonicalTopic [] (lit "tr") [])).2 = led_set_state 15 true :=
  ⟨by decide, by decide,
    (C14_payload_prefix_matching connectedState 15
      (messageEvent none canonicalTopic [] (lit "tr") []) none [] []
      (by decide) (by decide)).1.mpr (Or.inl ⟨by decide, by decide⟩)⟩

end HomeControlHub
